import Mathlib

/-!
Verification of the AASHTO 1993 Structural Number calculator
(`src/hellofriday.py`).

The computational core of the program consists of:
* `z_r_dict` — the reliability → Z_R lookup table (lines 62–75);
* `mr = 1500 * cbr` — the CBR → resilient-modulus conversion (line 117);
* `aashto_equation` — the AASHTO 1993 residual function (lines 148–164);
* the `fsolve` call from initial guess 3.0 (lines 170–175);
* `math.ceil(SN_required * 2) / 2` — rounding up to the nearest 0.5 (line 194);
* the `try`/`except Exception` handler around the computation (lines 168–254).

Real-valued quantities are embedded as `ℝ` (idealising IEEE-754 doubles),
`log10` as `Real.logb 10`, and Python's `**` on positive reals as `Real.rpow`.
Partiality of the Python math operations (`math.log10` raising on a
non-positive argument, division by zero, a negative base under a fractional
exponent) is made explicit in an `Option`-valued variant used for the
totality claims.
-/

namespace HelloFriday

/-- Reliability lookup table `z_r_dict` (source lines 62–75), mapping a
reliability percentage to Z_R. Keys are the literals offered by the
selectbox; a lookup at any other key is a Python `KeyError`, modelled by
`none`. -/
def z_r_dict (r : ℚ) : Option ℚ :=
  if r = 50 then some 0
  else if r = 60 then some (-253/1000)
  else if r = 70 then some (-524/1000)
  else if r = 75 then some (-674/1000)
  else if r = 80 then some (-841/1000)
  else if r = 85 then some (-1037/1000)
  else if r = 90 then some (-1282/1000)
  else if r = 95 then some (-1645/1000)
  else if r = 99 then some (-2327/1000)
  else if r = 999/10 then some (-3090/1000)
  else none

/-- The enumerated reliability keys offered by the selectbox (source line 56). -/
def reliabilityKeys : List ℚ := [50, 60, 70, 75, 80, 85, 90, 95, 99, 999/10]

/-- CBR to resilient-modulus conversion (source line 117): `mr = 1500 * cbr`. -/
def mrFromCBR (cbr : ℚ) : ℚ := 1500 * cbr

/-- Rounding of the solved SN (source line 194):
`math.ceil(SN_required * 2) / 2`, i.e. rounding up to the nearest 0.5. -/
noncomputable def roundedSN (sn : ℝ) : ℝ := (⌈sn * 2⌉ : ℝ) / 2

/-- Embedding of the `try`/`except` block around the solve (lines 168–254),
with the outcome of the `fsolve` call abstracted as an `Except` value.
On a normal return the code displays `SN_required` together with its
0.5-rounded value, with no convergence, tolerance or sign check on the
returned iterate; any raised exception is caught by the generic
`except Exception` branch (lines 252–254), which displays the message. -/
noncomputable def buttonHandler (solveOutcome : Except String ℝ) : Except String (ℝ × ℝ) :=
  match solveOutcome with
  | .ok sn => .ok (sn, roundedSN sn)
  | .error e => .error e

/-- Ideal real semantics of `math.log10`: the base-10 logarithm. -/
noncomputable def log10 (x : ℝ) : ℝ := Real.logb 10 x

/-- The third-term numerator of the residual (source line 157):
`math.log10(delta_psi / 4.2 - 1.5) if delta_psi / 4.2 - 1.5 > 0 else math.log10(0.001)`. -/
noncomputable def term3Numerator (delta_psi : ℝ) : ℝ :=
  if delta_psi / 4.2 - 1.5 > 0 then log10 (delta_psi / 4.2 - 1.5) else log10 0.001

/-- The AASHTO 1993 residual `aashto_equation` (source lines 148–164).
Python's `(SN + 1) ** 5.19` is `Real.rpow` on the positive base. -/
noncomputable def aashto_equation (SN W18 ZR S0 delta_psi MR : ℝ) : ℝ :=
  let log_W18 := log10 W18
  let term1 := ZR * S0
  let term2 := 9.36 * log10 (SN + 1) - 0.20
  let term3_numerator := term3Numerator delta_psi
  let term3_denominator := 0.40 + 1094 / (SN + 1) ^ (5.19 : ℝ)
  let term3 := term3_numerator / term3_denominator
  let term4 := 2.32 * log10 MR - 8.07
  let result := term1 + term2 + term3 + term4
  result - log_W18

/-- The residual as the SPEC writes it (spec §4.1 / claim C1):
`ZR*S0 + (9.36*log10(SN+1) - 0.20) + num/(0.40 + 1094/(SN+1)^5.19)
 + (2.32*log10(MR) - 8.07) - log10(W18)`, with `num` the guarded
third-term numerator fixed by the edge-case policy. Stated separately from
`aashto_equation` so the two can be compared. -/
noncomputable def f_spec (SN W18 ZR S0 delta_psi MR : ℝ) : ℝ :=
  ZR * S0 + (9.36 * log10 (SN + 1) - 0.20)
    + term3Numerator delta_psi / (0.40 + 1094 / (SN + 1) ^ (5.19 : ℝ))
    + (2.32 * log10 MR - 8.07) - log10 W18

/-- Partial version of `math.log10`: Python raises
`ValueError: math domain error` on a non-positive argument (modelled `none`). -/
noncomputable def log10E (x : ℝ) : Option ℝ :=
  if 0 < x then some (log10 x) else none

/-- Python float division, `none` on `ZeroDivisionError`. -/
noncomputable def divE (a b : ℝ) : Option ℝ :=
  if b = 0 then none else some (a / b)

/-- Python `x ** y` for float `y = 5.19`: real-valued only when the base is
non-negative (a negative base with a fractional exponent leaves the reals,
modelled `none`). -/
noncomputable def rpowE (x y : ℝ) : Option ℝ :=
  if 0 ≤ x then some (x ^ y) else none

/-- The guarded numerator of line 157 with the partiality of `math.log10`
explicit: the `log10` is only ever applied to an argument the guard has
checked to be positive, or to the constant `0.001`. -/
noncomputable def term3NumeratorE (delta_psi : ℝ) : Option ℝ :=
  if delta_psi / 4.2 - 1.5 > 0 then log10E (delta_psi / 4.2 - 1.5) else log10E 0.001

/-- The residual evaluated with every Python-partial operation explicit:
the result is `none` exactly when the Python code would raise inside the
residual evaluation. -/
noncomputable def aashto_equationE (SN W18 ZR S0 delta_psi MR : ℝ) : Option ℝ := do
  let log_W18 ← log10E W18
  let term1 := ZR * S0
  let l1 ← log10E (SN + 1)
  let term2 := 9.36 * l1 - 0.20
  let term3_numerator ← term3NumeratorE delta_psi
  let p ← rpowE (SN + 1) 5.19
  let q ← divE 1094 p
  let term3 ← divE term3_numerator (0.40 + q)
  let lMR ← log10E MR
  let term4 := 2.32 * lMR - 8.07
  some (term1 + term2 + term3 + term4 - log_W18)

/-- Helper: the floored numerator is exactly −3, since
`log10 0.001 = log10 (10 ^ (-3)) = -3`. -/
lemma log10_thousandth : log10 0.001 = -3 := by
  have h10 : Real.log 10 ≠ 0 := ne_of_gt (Real.log_pos (by norm_num))
  unfold log10
  rw [Real.logb, show (0.001 : ℝ) = (1000 : ℝ)⁻¹ by norm_num, Real.log_inv,
    show (1000 : ℝ) = 10 ^ (3 : ℕ) by norm_num, Real.log_pow]
  field_simp

/-- C1: the residual `f(SN; W18, ZR, S0, deltaPSI, MR)` computed by
`aashto_equation` equals
`ZR*S0 + (9.36*log10(SN+1) - 0.20) + num/(0.40 + 1094/(SN+1)^5.19)
 + (2.32*log10(MR) - 8.07) - log10(W18)`
(with `num` the guarded third-term numerator of the edge-case policy), for
every `SN > -1`, `W18 > 0`, `MR > 0`. -/
theorem aashto_equation_matches_spec (SN W18 ZR S0 delta_psi MR : ℝ)
    (_hSN : -1 < SN) (_hW : 0 < W18) (_hMR : 0 < MR) :
    aashto_equation SN W18 ZR S0 delta_psi MR = f_spec SN W18 ZR S0 delta_psi MR := by
  unfold aashto_equation f_spec
  ring

/-- Witness for C1 at `SN = 0`, `W18 = 1`, `ZR = -1.282`, `S0 = 0.45`,
`deltaPSI = 1.7`, `MR = 1`. -/
theorem aashto_equation_matches_spec_witness :
    (-1 : ℝ) < 0 ∧ (0 : ℝ) < 1 ∧
      aashto_equation 0 1 (-1.282) 0.45 1.7 1 = f_spec 0 1 (-1.282) 0.45 1.7 1 :=
  ⟨by norm_num, by norm_num,
    aashto_equation_matches_spec 0 1 (-1.282) 0.45 1.7 1 (by norm_num) (by norm_num) (by norm_num)⟩

/-- C2: for every `deltaPSI`, the third-term numerator is
`log10 (deltaPSI/4.2 - 1.5)` exactly when `deltaPSI/4.2 - 1.5 > 0`, and is
`log10 0.001` exactly when `deltaPSI/4.2 - 1.5 ≤ 0`; with Python's
`math.log10` partiality explicit the numerator always evaluates (it is never
a domain failure). -/
theorem term3Numerator_guard (delta_psi : ℝ) :
    (delta_psi / 4.2 - 1.5 > 0 →
      term3Numerator delta_psi = log10 (delta_psi / 4.2 - 1.5)) ∧
    (delta_psi / 4.2 - 1.5 ≤ 0 →
      term3Numerator delta_psi = log10 0.001) ∧
    ∃ r, term3NumeratorE delta_psi = some r := by
  refine ⟨fun h => ?_, fun h => ?_, ?_⟩
  · unfold term3Numerator
    rw [if_pos h]
  · unfold term3Numerator
    rw [if_neg (not_lt.mpr h)]
  · unfold term3NumeratorE
    by_cases h : delta_psi / 4.2 - 1.5 > 0
    · rw [if_pos h]
      exact ⟨log10 (delta_psi / 4.2 - 1.5), by rw [log10E, if_pos h]⟩
    · rw [if_neg h]
      exact ⟨log10 0.001, by rw [log10E, if_pos (by norm_num : (0:ℝ) < 0.001)]⟩

/-- Witness for C2 at `deltaPSI = 1.7` (the worked reference value), where
`1.7/4.2 - 1.5 ≤ 0` selects the floor branch. -/
theorem term3Numerator_guard_witness :
    (1.7 : ℝ) / 4.2 - 1.5 ≤ 0 ∧ term3Numerator 1.7 = log10 0.001 :=
  ⟨by norm_num, (term3Numerator_guard 1.7).2.1 (by norm_num)⟩

/-- Counterexample for C4 as stated: the handler reports a negative
iterate handed back by `fsolve` as a success result, `(-2, roundedSN (-2))`,
instead of failing; there is no convergence or sign check in the code. -/
theorem buttonHandler_negative_success :
    buttonHandler (Except.ok (-2)) = Except.ok ((-2 : ℝ), (-2 : ℝ)) := by
  have h : roundedSN (-2) = -2 := by
    unfold roundedSN
    rw [show ((-2 : ℝ) * 2) = ((-4 : ℤ) : ℝ) by norm_num, Int.ceil_intCast]
    norm_num
  have hb : buttonHandler (Except.ok (-2)) = Except.ok ((-2 : ℝ), roundedSN (-2)) := rfl
  rw [hb, h]

/-- C4 (amended): the handler catches any raised exception and reports its
message as an error; on a normal `fsolve` return it reports the returned
iterate together with its 0.5-rounded value as a success result,
unconditionally — with no `ConvergenceError`, no residual-tolerance check,
and no sign check, so a non-converged or negative iterate is reported as
success. -/
theorem buttonHandler_spec :
    (∀ r : ℝ, buttonHandler (Except.ok r) = Except.ok (r, roundedSN r)) ∧
    (∀ e : String, buttonHandler (Except.error e) = Except.error e) :=
  ⟨fun _ => rfl, fun _ => rfl⟩

/-- C6: the reliability lookup maps exactly the keys
`{50, 60, 70, 75, 80, 85, 90, 95, 99, 99.9}` to the Z_R values
`{0.000, -0.253, -0.524, -0.674, -0.841, -1.037, -1.282, -1.645, -2.327,
-3.090}` respectively, and a lookup on any key outside this set fails
(returns `none`, the model of the raised lookup error). -/
theorem z_r_dict_lookup :
    (z_r_dict 50 = some 0 ∧ z_r_dict 60 = some (-0.253) ∧ z_r_dict 70 = some (-0.524) ∧
     z_r_dict 75 = some (-0.674) ∧ z_r_dict 80 = some (-0.841) ∧ z_r_dict 85 = some (-1.037) ∧
     z_r_dict 90 = some (-1.282) ∧ z_r_dict 95 = some (-1.645) ∧ z_r_dict 99 = some (-2.327) ∧
     z_r_dict 99.9 = some (-3.090)) ∧
    ∀ r : ℚ, r ∉ reliabilityKeys → z_r_dict r = none := by
  constructor
  · refine ⟨?_, ?_, ?_, ?_, ?_, ?_, ?_, ?_, ?_, ?_⟩ <;> norm_num [z_r_dict]
  · intro r hr
    simp only [reliabilityKeys, List.mem_cons, List.not_mem_nil, or_false, not_or] at hr
    obtain ⟨h1, h2, h3, h4, h5, h6, h7, h8, h9, h10⟩ := hr
    unfold z_r_dict
    rw [if_neg h1, if_neg h2, if_neg h3, if_neg h4, if_neg h5, if_neg h6, if_neg h7,
      if_neg h8, if_neg h9, if_neg h10]

/-- Witness for C6: the key 42 is outside the enumerated domain and its
lookup fails. -/
theorem z_r_dict_lookup_witness : (42 : ℚ) ∉ reliabilityKeys ∧ z_r_dict 42 = none :=
  ⟨by norm_num [reliabilityKeys], z_r_dict_lookup.2 42 (by norm_num [reliabilityKeys])⟩

/-- C7: for every solved SN, the rounded value equals `⌈SN*2⌉/2`, is at
least SN, and exceeds SN by less than 0.5 — it is SN rounded up to the
nearest 0.5. -/
theorem roundedSN_law (SN : ℝ) :
    roundedSN SN = (⌈SN * 2⌉ : ℝ) / 2 ∧ SN ≤ roundedSN SN ∧ roundedSN SN - SN < 0.5 := by
  refine ⟨rfl, ?_, ?_⟩
  · have h := Int.le_ceil (SN * 2)
    unfold roundedSN
    linarith
  · have h := Int.ceil_lt_add_one (SN * 2)
    unfold roundedSN
    norm_num
    linarith

/-- C8: for every `CBR > 0` the derived resilient modulus is exactly
`1500 * CBR`, with no rounding or clamping. -/
theorem mrFromCBR_exact (cbr : ℚ) (_h : 0 < cbr) : mrFromCBR cbr = 1500 * cbr := rfl

/-- Witness for C8 at the UI default `CBR = 5`, which the source displays
as `M_R = 7500 psi`. -/
theorem mrFromCBR_exact_witness : (0 : ℚ) < 5 ∧ mrFromCBR 5 = 7500 :=
  ⟨by norm_num, by rw [mrFromCBR_exact 5 (by norm_num)]; norm_num⟩

/-- C9 (implicit): for any serviceability inputs within the declared UI
ranges (`pI ∈ [3,5]`, `pT ∈ [1.5,3]`, so `deltaPSI = pI - pT ≤ 3.5 < 6.3`),
the guard `deltaPSI/4.2 - 1.5 > 0` is false, the floored numerator
`log10 0.001 = -3` is always used, and the residual is therefore identical
for any two in-range serviceability settings: since the solver sees
`delta_psi` only through the residual, the serviceability inputs have no
effect on the result. -/
theorem serviceability_no_effect (pI pT pI2 pT2 : ℝ)
    (hi1 : 3 ≤ pI) (hi2 : pI ≤ 5) (ht1 : 1.5 ≤ pT) (ht2 : pT ≤ 3)
    (hj1 : 3 ≤ pI2) (hj2 : pI2 ≤ 5) (hs1 : 1.5 ≤ pT2) (hs2 : pT2 ≤ 3) :
    term3Numerator (pI - pT) = -3 ∧
    ∀ SN W18 ZR S0 MR : ℝ,
      aashto_equation SN W18 ZR S0 (pI - pT) MR
        = aashto_equation SN W18 ZR S0 (pI2 - pT2) MR := by
  have key : ∀ x y : ℝ, 3 ≤ x → x ≤ 5 → 1.5 ≤ y → y ≤ 3 →
      term3Numerator (x - y) = -3 := by
    intro x y h1 h2 h3 h4
    have hle : (x - y) / 4.2 - 1.5 ≤ 0 := by
      have h42 : (0 : ℝ) < 4.2 := by norm_num
      have hxy : x - y ≤ 1.5 * 4.2 := by linarith
      have := (div_le_iff₀ h42).mpr hxy
      linarith
    unfold term3Numerator
    rw [if_neg (not_lt.mpr hle), log10_thousandth]
  refine ⟨key pI pT hi1 hi2 ht1 ht2, fun SN W18 ZR S0 MR => ?_⟩
  unfold aashto_equation
  rw [key pI pT hi1 hi2 ht1 ht2, key pI2 pT2 hj1 hj2 hs1 hs2]

/-- Witness for C9 at the defaults `pI = 4.2`, `pT = 2.5` against the
alternative `pT = 2.0`: the numerator is the floored constant −3. -/
theorem serviceability_no_effect_witness : term3Numerator ((4.2 : ℝ) - 2.5) = -3 :=
  (serviceability_no_effect 4.2 2.5 4.2 2.0 (by norm_num) (by norm_num) (by norm_num)
    (by norm_num) (by norm_num) (by norm_num) (by norm_num) (by norm_num)).1

/-- C10 (implicit): for every `SN > -1`, `W18 > 0`, `MR > 0` and EVERY
`deltaPSI` (including `deltaPSI ≤ 0`), the residual evaluation with all
Python-partial operations explicit succeeds, returning the value of the
total model — no logarithm domain error, no division by zero, and no
rejection of degenerate `deltaPSI`. -/
theorem aashto_equationE_total (SN W18 ZR S0 delta_psi MR : ℝ)
    (hSN : -1 < SN) (hW : 0 < W18) (hMR : 0 < MR) :
    aashto_equationE SN W18 ZR S0 delta_psi MR
      = some (aashto_equation SN W18 ZR S0 delta_psi MR) := by
  have hSN1 : 0 < SN + 1 := by linarith
  have hp : (0 : ℝ) < (SN + 1) ^ (5.19 : ℝ) := Real.rpow_pos_of_pos hSN1 _
  have hden : (0.40 : ℝ) + 1094 / (SN + 1) ^ (5.19 : ℝ) ≠ 0 := by positivity
  have hnum : term3NumeratorE delta_psi = some (term3Numerator delta_psi) := by
    unfold term3NumeratorE term3Numerator
    by_cases h : delta_psi / 4.2 - 1.5 > 0
    · rw [if_pos h, if_pos h, log10E, if_pos h]
    · rw [if_neg h, if_neg h, log10E, if_pos (by norm_num : (0:ℝ) < 0.001)]
  unfold aashto_equationE aashto_equation
  rw [log10E, if_pos hW, log10E, if_pos hSN1, hnum]
  simp only [Option.bind_some, Option.some_bind, Option.bind_eq_bind]
  rw [rpowE, if_pos (le_of_lt hSN1)]
  simp only [Option.some_bind]
  rw [divE, if_neg (ne_of_gt hp)]
  simp only [Option.some_bind]
  rw [divE, if_neg hden]
  simp only [Option.some_bind]
  rw [log10E, if_pos hMR]
  simp only [Option.some_bind]

/-- Witness for C10 at `SN = 3`, `W18 = 5000000`, `ZR = -1.282`,
`S0 = 0.45`, `MR = 7500` with the degenerate `deltaPSI = -2 ≤ 0`: the
evaluation still succeeds. -/
theorem aashto_equationE_total_witness :
    aashto_equationE 3 5000000 (-1.282) 0.45 (-2) 7500
      = some (aashto_equation 3 5000000 (-1.282) 0.45 (-2) 7500) :=
  aashto_equationE_total 3 5000000 (-1.282) 0.45 (-2) 7500
    (by norm_num) (by norm_num) (by norm_num)

end HelloFriday
